import Mathlib

/-!
Shallow embedding of the automatic like-dispatch cycle of the bot
(scheduler.py, database.py, api_client.py, config.py).

The persistent store is modelled as in-memory lists mirroring the two
SQLite tables touched by the cycle; the chat transport is modelled as a
trace of notification events; the remote API is an oracle from
(telegram id, game id) to the parsed response dictionary; wall-clock
timestamps are an opaque string parameter.
-/

namespace Bot

/-- config.py: MIN_LIKES_REQUIRED = 100. -/
def MIN_LIKES_REQUIRED : Int := 100

/-- The parsed JSON response of the remote likes API, in the shape the
scheduler reads it: `success` is the truthiness of the success field
(absent means false), `likesAdded` is the value with the default 0
already applied (every call site uses .get with default 0), and the
remaining fields are `none` when absent. -/
structure RawResponse where
  success : Bool := false
  error : Option String := none
  message : Option String := none
  likesAdded : Int := 0
  player : Option String := none
  deriving Repr, DecidableEq

/-- A row of the game_ids table (database.py init_db), restricted to the
columns the dispatch cycle reads or writes. -/
structure Registration where
  telegram_id : Int
  game_id : String
  player_name : Option String := none
  last_likes_sent : Option String := none
  total_likes_received : Int := 0
  active : Bool := true
  deriving Repr, DecidableEq

/-- A row of the send_history table (database.py init_db). -/
structure SendRecord where
  telegram_id : Int
  game_id : String
  likes_sent : Int
  success : Bool
  error_message : Option String
  player_name : Option String
  timestamp : String
  is_auto : Bool
  deriving Repr, DecidableEq

/-- The persistent store: the two tables touched by the dispatch cycle. -/
structure DB where
  game_ids : List Registration := []
  send_history : List SendRecord := []
  deriving Repr, DecidableEq

/-- database.update_game_id_info, effect on a single row: the UPDATE
touches rows with matching telegram_id and game_id and active = 1,
refreshing player_name, setting last_likes_sent to now, and adding
likes_added to total_likes_received. -/
def updateRow (tid : Int) (gid : String) (player_name : String) (now : String)
    (likes_added : Int) (r : Registration) : Registration :=
  if r.telegram_id = tid ∧ r.game_id = gid ∧ r.active = true then
    { r with player_name := some player_name, last_likes_sent := some now,
             total_likes_received := r.total_likes_received + likes_added }
  else r

/-- database.update_game_id_info. -/
def update_game_id_info (tid : Int) (gid : String) (player_name : String)
    (likes_added : Int) (now : String) (db : DB) : DB :=
  { db with game_ids := db.game_ids.map (updateRow tid gid player_name now likes_added) }

/-- database.log_send: INSERT one row into send_history. -/
def log_send (tid : Int) (gid : String) (likes_sent : Int) (success : Bool)
    (error_message : Option String) (player_name : Option String)
    (is_auto : Bool) (now : String) (db : DB) : DB :=
  { db with send_history := db.send_history ++
      [{ telegram_id := tid, game_id := gid, likes_sent := likes_sent,
         success := success, error_message := error_message,
         player_name := player_name, timestamp := now, is_auto := is_auto }] }

/-- One step of the grouping loop of database.get_all_active_game_ids:
the Python dict keeps one entry per telegram id, in insertion order of
first appearance, and appends the game id to that entry's list. -/
def insertGrouped (tid : Int) (gid : String) :
    List (Int × List String) → List (Int × List String)
  | [] => [(tid, [gid])]
  | (t, gs) :: rest =>
      if t = tid then (t, gs ++ [gid]) :: rest
      else (t, gs) :: insertGrouped tid gid rest

/-- database.get_all_active_game_ids grouping of the fetched rows. -/
def groupRows (rows : List (Int × String)) : List (Int × List String) :=
  rows.foldl (fun acc r => insertGrouped r.1 r.2 acc) []

/-- database.get_all_active_game_ids: SELECT telegram_id, game_id FROM
game_ids WHERE active = 1, then group by telegram_id. -/
def get_all_active_game_ids (db : DB) : List (Int × List String) :=
  groupRows ((db.game_ids.filter (fun r => r.active)).map
    (fun r => (r.telegram_id, r.game_id)))

/-- One element of the per-user user_results list built by
scheduler.send_automatic_likes: status is the Python string tag. -/
structure ResultEntry where
  status : String
  game_id : String
  data : RawResponse
  deriving Repr, DecidableEq

/-- An observable chat-transport event of one cycle. -/
inductive Notif where
  /-- The configuration-error notice sent to the admin when no API key
  is stored (scheduler.py line 75). -/
  | adminConfigError : Notif
  /-- scheduler.send_user_notification: one consolidated message to one
  user carrying the ordered results of this run; `delivered` is false
  when the transport raised (the exception is caught and logged). -/
  | userMsg (telegram_id : Int) (results : List ResultEntry) (delivered : Bool) : Notif
  /-- scheduler.send_admin_report: the aggregate report; `rate` is the
  computed success percentage, `none` when the division raised
  ZeroDivisionError inside the try block; `delivered` is false whenever
  the message was not sent (formatting raised or transport failed). -/
  | adminReport (total_users total_ids : Nat) (total_likes : Int)
      (successes failures : Nat) (rate : Option ℚ) (delivered : Bool) : Notif
  deriving Repr, DecidableEq

/-- The mutable locals of the identifier loop in send_automatic_likes. -/
structure LoopState where
  db : DB
  total_likes_sent : Int := 0
  total_successes : Nat := 0
  total_failures : Nat := 0
  deriving Repr, DecidableEq

/-- The body of the inner loop of scheduler.send_automatic_likes
(lines 105-163): classify the response, persist, and accumulate. -/
def processOne (now : String) (tid : Int) (gid : String) (response : RawResponse)
    (s : LoopState) : LoopState × ResultEntry :=
  if response.success = true ∧ response.likesAdded ≥ MIN_LIKES_REQUIRED then
    let likes_added := response.likesAdded
    let player_name := response.player.getD "N/A"
    let db := update_game_id_info tid gid player_name likes_added now s.db
    let db := log_send tid gid likes_added true none (some player_name) true now db
    ({ db := db,
       total_likes_sent := s.total_likes_sent + likes_added,
       total_successes := s.total_successes + 1,
       total_failures := s.total_failures },
     { status := "success", game_id := gid, data := response })
  else if response.success = false ∧ response.error = some "INSUFFICIENT_LIKES" then
    let likes_added := response.likesAdded
    let player_name := response.player.getD "N/A"
    let db := log_send tid gid likes_added false (some "Menos de 100 likes")
      (some player_name) true now s.db
    ({ db := db,
       total_likes_sent := s.total_likes_sent,
       total_successes := s.total_successes,
       total_failures := s.total_failures + 1 },
     { status := "partial", game_id := gid, data := response })
  else
    let error_msg := response.message.getD "Erro desconhecido"
    let db := log_send tid gid 0 false (some error_msg) none true now s.db
    ({ db := db,
       total_likes_sent := s.total_likes_sent,
       total_successes := s.total_successes,
       total_failures := s.total_failures + 1 },
     { status := "error", game_id := gid, data := response })

/-- scheduler.send_user_notification: builds one consolidated message
from the ordered results and sends it; any exception (including
transport failure, modelled by the deliver oracle) is caught, so the
call always returns. -/
def send_user_notification (deliver : Int → Bool) (tid : Int)
    (results : List ResultEntry) : Notif :=
  .userMsg tid results (deliver tid)

/-- The success-percentage expression of scheduler.send_admin_report
(line 274): successes/(successes+failures)*100, `none` when the
denominator is zero (Python raises ZeroDivisionError there). Python
computes a float; it is modelled as the exact rational. -/
def successRate (successes failures : Nat) : Option ℚ :=
  if successes + failures = 0 then none
  else some ((successes : ℚ) / ((successes : ℚ) + (failures : ℚ)) * 100)

/-- scheduler.send_admin_report: the whole body is one try block, so a
ZeroDivisionError while formatting means no message is sent; a transport
failure is likewise caught. -/
def send_admin_report (deliver : Bool) (total_users total_ids : Nat)
    (total_likes : Int) (successes failures : Nat) : Notif :=
  .adminReport total_users total_ids total_likes successes failures
    (successRate successes failures)
    ((successRate successes failures).isSome && deliver)

/-- The inner loop of send_automatic_likes over one user's game ids. -/
def processUser (now : String) (resp : Int → String → RawResponse) (tid : Int) :
    List String → LoopState → LoopState × List ResultEntry
  | [], s => (s, [])
  | gid :: rest, s =>
      let p := processOne now tid gid (resp tid gid) s
      let q := processUser now resp tid rest p.1
      (q.1, p.2 :: q.2)

/-- The outer loop of send_automatic_likes over users: after each user's
ids, one consolidated notification is sent to that user. -/
def processUsers (now : String) (resp : Int → String → RawResponse)
    (deliver : Int → Bool) :
    List (Int × List String) → LoopState → LoopState × List Notif
  | [], s => (s, [])
  | (tid, gids) :: rest, s =>
      let p := processUser now resp tid gids s
      let n := send_user_notification deliver tid p.2
      let q := processUsers now resp deliver rest p.1
      (q.1, n :: q.2)

/-- The aggregation the spec calls DispatchSummary. -/
structure DispatchSummary where
  total_users : Nat
  total_ids : Nat
  total_likes_sent : Int
  total_successes : Nat
  total_failures : Nat
  deriving Repr, DecidableEq

/-- The observable result of one invocation of send_automatic_likes:
final store, the ordered notification trace, and the Python return
value of the coroutine. -/
structure RunResult where
  db : DB
  notifications : List Notif
  retval : Option DispatchSummary
  deriving Repr, DecidableEq

/-- Python truthiness test `if not api_key` of scheduler.py line 73:
both a missing key file (None) and an empty string are falsy. -/
def keyMissing : Option String → Bool
  | none => true
  | some k => k = ""

/-- scheduler.send_automatic_likes (lines 64-174). The api_key argument
is the value returned by api_client.load_key; resp is the remote oracle
standing for api_client.send_likes (a total function: that client turns
every transport exception into an error dictionary); deliver and
adminDeliver model whether the chat transport accepts each message.
The Python coroutine has no return statement with a value, so retval is
always none. -/
def send_automatic_likes (api_key : Option String)
    (resp : Int → String → RawResponse) (deliver : Int → Bool)
    (adminDeliver : Bool) (now : String) (db : DB) : RunResult :=
  if keyMissing api_key then
    { db := db, notifications := [.adminConfigError], retval := none }
  else
    let users_ids := get_all_active_game_ids db
    if users_ids = [] then
      { db := db, notifications := [], retval := none }
    else
      let total_users := users_ids.length
      let total_ids := (users_ids.map (fun p => p.2.length)).sum
      let s0 : LoopState := { db := db }
      let r := processUsers now resp deliver users_ids s0
      let report := send_admin_report adminDeliver total_users total_ids
        r.1.total_likes_sent r.1.total_successes r.1.total_failures
      { db := r.1.db, notifications := r.2 ++ [report], retval := none }

/-- scheduler.force_send: the manual trigger just awaits
send_automatic_likes and discards its (None) result. -/
def force_send (api_key : Option String) (resp : Int → String → RawResponse)
    (deliver : Int → Bool) (adminDeliver : Bool) (now : String) (db : DB) :
    RunResult :=
  send_automatic_likes api_key resp deliver adminDeliver now db

/-- Derived: the classification tag the loop body assigns to a raw
response (first match wins, as in the if/elif/else chain). -/
def classify (r : RawResponse) : String :=
  if r.success = true ∧ r.likesAdded ≥ MIN_LIKES_REQUIRED then "success"
  else if r.success = false ∧ r.error = some "INSUFFICIENT_LIKES" then "partial"
  else "error"

/-- Derived: the contribution of one response to total_likes_sent
(only Success outcomes count). -/
def successLikes (r : RawResponse) : Int :=
  if classify r = "success" then r.likesAdded else 0

/-- Derived: the send_history row the loop body appends for one call. -/
def auditOf (now : String) (tid : Int) (gid : String) (r : RawResponse) : SendRecord :=
  if r.success = true ∧ r.likesAdded ≥ MIN_LIKES_REQUIRED then
    { telegram_id := tid, game_id := gid, likes_sent := r.likesAdded,
      success := true, error_message := none,
      player_name := some (r.player.getD "N/A"), timestamp := now, is_auto := true }
  else if r.success = false ∧ r.error = some "INSUFFICIENT_LIKES" then
    { telegram_id := tid, game_id := gid, likes_sent := r.likesAdded,
      success := false, error_message := some "Menos de 100 likes",
      player_name := some (r.player.getD "N/A"), timestamp := now, is_auto := true }
  else
    { telegram_id := tid, game_id := gid, likes_sent := 0,
      success := false, error_message := some (r.message.getD "Erro desconhecido"),
      player_name := none, timestamp := now, is_auto := true }

/-- Derived: the user_results entry the loop body appends for one call. -/
def entryOf (gid : String) (r : RawResponse) : ResultEntry :=
  { status := classify r, game_id := gid, data := r }

/-- One loop-body call: characterization of its state change and entry. -/
theorem processOne_eq (now : String) (tid : Int) (gid : String) (r : RawResponse)
    (s : LoopState) :
    processOne now tid gid r s =
      ({ db := { game_ids :=
                   if classify r = "success" then
                     s.db.game_ids.map (updateRow tid gid (r.player.getD "N/A") now r.likesAdded)
                   else s.db.game_ids,
                 send_history := s.db.send_history ++ [auditOf now tid gid r] },
         total_likes_sent := s.total_likes_sent + successLikes r,
         total_successes :=
           if classify r = "success" then s.total_successes + 1 else s.total_successes,
         total_failures :=
           if classify r = "success" then s.total_failures else s.total_failures + 1 },
       entryOf gid r) := by
  simp only [processOne, classify, successLikes, auditOf, entryOf,
    update_game_id_info, log_send]
  split_ifs <;> simp_all

/-- The per-user loop returns one result entry per game id, in order. -/
theorem processUser_results (now : String) (resp : Int → String → RawResponse)
    (tid : Int) (gids : List String) (s : LoopState) :
    (processUser now resp tid gids s).2 =
      gids.map (fun gid => entryOf gid (resp tid gid)) := by
  induction gids generalizing s with
  | nil => rfl
  | cons gid rest ih =>
      simp only [processUser, List.map, processOne_eq, ih]

/-- The per-user loop appends exactly one audit row per game id, in order. -/
theorem processUser_history (now : String) (resp : Int → String → RawResponse)
    (tid : Int) (gids : List String) (s : LoopState) :
    (processUser now resp tid gids s).1.db.send_history =
      s.db.send_history ++ gids.map (fun gid => auditOf now tid gid (resp tid gid)) := by
  induction gids generalizing s with
  | nil => simp [processUser]
  | cons gid rest ih =>
      simp only [processUser, processOne_eq, ih, List.map]
      simp

/-- The per-user loop counts every game id in exactly one of the two
counters, and adds only Success likes to the likes total. -/
theorem processUser_counters (now : String) (resp : Int → String → RawResponse)
    (tid : Int) (gids : List String) (s : LoopState) :
    (processUser now resp tid gids s).1.total_successes +
        (processUser now resp tid gids s).1.total_failures =
      s.total_successes + s.total_failures + gids.length ∧
    (processUser now resp tid gids s).1.total_likes_sent =
      s.total_likes_sent + (gids.map (fun gid => successLikes (resp tid gid))).sum := by
  induction gids generalizing s with
  | nil => simp [processUser]
  | cons gid rest ih =>
      simp only [processUser, processOne_eq, List.map, List.sum_cons, List.length_cons]
      rcases ih _ with ⟨h1, h2⟩
      constructor
      · rw [h1]; split_ifs <;> simp <;> omega
      · rw [h2]; simp; ring

/-- The outer loop emits exactly one consolidated user notification per
user, in enumeration order, carrying that user's ordered results. -/
theorem processUsers_notifs (now : String) (resp : Int → String → RawResponse)
    (deliver : Int → Bool) (groups : List (Int × List String)) (s : LoopState) :
    (processUsers now resp deliver groups s).2 =
      groups.map (fun g =>
        Notif.userMsg g.1 (g.2.map (fun gid => entryOf gid (resp g.1 gid)))
          (deliver g.1)) := by
  induction groups generalizing s with
  | nil => rfl
  | cons g rest ih =>
      obtain ⟨tid, gids⟩ := g
      simp only [processUsers, send_user_notification, processUser_results, ih, List.map]

/-- The outer loop appends one audit row per enumerated identifier, in
enumeration order. -/
theorem processUsers_history (now : String) (resp : Int → String → RawResponse)
    (deliver : Int → Bool) (groups : List (Int × List String)) (s : LoopState) :
    (processUsers now resp deliver groups s).1.db.send_history =
      s.db.send_history ++
        groups.flatMap (fun g => g.2.map (fun gid => auditOf now g.1 gid (resp g.1 gid))) := by
  induction groups generalizing s with
  | nil => simp [processUsers]
  | cons g rest ih =>
      obtain ⟨tid, gids⟩ := g
      simp only [processUsers, ih, processUser_history, List.flatMap_cons]
      simp

/-- The outer loop's counters: every identifier lands in exactly one of
the two counters, and the likes total sums Success likes only. -/
theorem processUsers_counters (now : String) (resp : Int → String → RawResponse)
    (deliver : Int → Bool) (groups : List (Int × List String)) (s : LoopState) :
    (processUsers now resp deliver groups s).1.total_successes +
        (processUsers now resp deliver groups s).1.total_failures =
      s.total_successes + s.total_failures + (groups.map (fun g => g.2.length)).sum ∧
    (processUsers now resp deliver groups s).1.total_likes_sent =
      s.total_likes_sent +
        (groups.flatMap (fun g => g.2.map (fun gid => successLikes (resp g.1 gid)))).sum := by
  induction groups generalizing s with
  | nil => simp [processUsers]
  | cons g rest ih =>
      obtain ⟨tid, gids⟩ := g
      simp only [processUsers, List.map, List.sum_cons, List.flatMap_cons]
      rcases ih _ with ⟨h1, h2⟩
      rcases processUser_counters now resp tid gids s with ⟨g1, g2⟩
      constructor
      · rw [h1, g1]; omega
      · rw [h2, g2]; simp; ring

/-- The loop state of the outer loop does not depend on the user
notification transport: a delivery failure is caught inside
send_user_notification and the cycle's state is unaffected. -/
theorem processUsers_state_indep (now : String) (resp : Int → String → RawResponse)
    (d d' : Int → Bool) (groups : List (Int × List String)) (s : LoopState) :
    (processUsers now resp d groups s).1 = (processUsers now resp d' groups s).1 := by
  induction groups generalizing s with
  | nil => rfl
  | cons g rest ih =>
      obtain ⟨tid, gids⟩ := g
      simp only [processUsers, ih]

/-- insertGrouped preserves nonemptiness of every group's id list. -/
theorem insertGrouped_nonempty (tid : Int) (gid : String)
    (l : List (Int × List String)) (h : ∀ p ∈ l, p.2 ≠ []) :
    ∀ p ∈ insertGrouped tid gid l, p.2 ≠ [] := by
  induction l with
  | nil => simp [insertGrouped]
  | cons q rest ih =>
      obtain ⟨t, gs⟩ := q
      simp only [insertGrouped]
      split_ifs with ht
      · intro p hp
        rcases List.mem_cons.mp hp with h1 | h2
        · subst h1; simp
        · exact h p (List.mem_cons_of_mem _ h2)
      · intro p hp
        rcases List.mem_cons.mp hp with h1 | h2
        · subst h1; exact h (t, gs) (List.mem_cons_self _ _)
        · exact ih (fun q hq => h q (List.mem_cons_of_mem _ hq)) p h2

/-- Every group produced by the store's grouped enumeration has at least
one identifier: a user appears in the dict only when a row of theirs
was fetched. -/
theorem groupRows_nonempty (rows : List (Int × String)) :
    ∀ p ∈ groupRows rows, p.2 ≠ [] := by
  suffices h : ∀ acc : List (Int × List String), (∀ p ∈ acc, p.2 ≠ []) →
      ∀ p ∈ rows.foldl (fun acc r => insertGrouped r.1 r.2 acc) acc, p.2 ≠ [] by
    exact h [] (by simp)
  induction rows with
  | nil => intro acc hacc; simpa using hacc
  | cons r rest ih =>
      intro acc hacc
      simp only [List.foldl_cons]
      exact ih _ (insertGrouped_nonempty r.1 r.2 acc hacc)

/-- Claim C1: a raw response with success=true and likesAdded at least the
configured minimum (100) is classified Success with likes_added equal to
the response's likesAdded; the identifier's registration rows are updated
(player name refreshed, last-send timestamp set, total_likes_received
incremented by likesAdded) and exactly one audit record with success=true
and origin=automatic is appended. -/
theorem C1_success_dispatch (now : String) (tid : Int) (gid : String)
    (r : RawResponse) (s : LoopState)
    (hs : r.success = true) (hl : r.likesAdded ≥ MIN_LIKES_REQUIRED) :
    (processOne now tid gid r s).2 =
      { status := "success", game_id := gid, data := r } ∧
    (processOne now tid gid r s).1.db.send_history =
      s.db.send_history ++
        [{ telegram_id := tid, game_id := gid, likes_sent := r.likesAdded,
           success := true, error_message := none,
           player_name := some (r.player.getD "N/A"), timestamp := now,
           is_auto := true }] ∧
    (processOne now tid gid r s).1.db.game_ids =
      s.db.game_ids.map (updateRow tid gid (r.player.getD "N/A") now r.likesAdded) ∧
    (∀ reg ∈ s.db.game_ids,
        reg.telegram_id = tid → reg.game_id = gid → reg.active = true →
        updateRow tid gid (r.player.getD "N/A") now r.likesAdded reg =
          { reg with player_name := some (r.player.getD "N/A"),
                     last_likes_sent := some now,
                     total_likes_received := reg.total_likes_received + r.likesAdded }) ∧
    (processOne now tid gid r s).1.total_successes = s.total_successes + 1 ∧
    (processOne now tid gid r s).1.total_likes_sent =
      s.total_likes_sent + r.likesAdded := by
  have hc : classify r = "success" := by simp [classify, hs, hl]
  refine ⟨?_, ?_, ?_, ?_, ?_, ?_⟩
  · rw [processOne_eq]; simp [entryOf, hc]
  · rw [processOne_eq]; simp [auditOf, hs, hl]
  · rw [processOne_eq]; simp [hc]
  · intro reg _ h1 h2 h3
    simp [updateRow, h1, h2, h3]
  · rw [processOne_eq]; simp [hc]
  · rw [processOne_eq]; simp [successLikes, hc]

/-- Witness for C1 at a concrete input: likesAdded 150 for player Ana on
registration (7, id 123) with prior total 7. -/
theorem C1_success_dispatch_witness :
    ({ success := true, likesAdded := 150, player := some "Ana" } : RawResponse).success
        = true ∧
    ({ success := true, likesAdded := 150, player := some "Ana" } : RawResponse).likesAdded
        ≥ MIN_LIKES_REQUIRED ∧
    (processOne "t0" 7 "123"
        { success := true, likesAdded := 150, player := some "Ana" }
        { db := { game_ids := [{ telegram_id := 7, game_id := "123",
                                 total_likes_received := 7 }] } }).1.db.game_ids =
      [{ telegram_id := 7, game_id := "123", player_name := some "Ana",
         last_likes_sent := some "t0", total_likes_received := 157,
         active := true }] ∧
    (processOne "t0" 7 "123"
        { success := true, likesAdded := 150, player := some "Ana" }
        { db := { game_ids := [{ telegram_id := 7, game_id := "123",
                                 total_likes_received := 7 }] } }).1.db.send_history =
      [{ telegram_id := 7, game_id := "123", likes_sent := 150, success := true,
         error_message := none, player_name := some "Ana", timestamp := "t0",
         is_auto := true }] := by
  have h := C1_success_dispatch "t0" 7 "123"
    { success := true, likesAdded := 150, player := some "Ana" }
    { db := { game_ids := [{ telegram_id := 7, game_id := "123",
                             total_likes_received := 7 }] } }
    rfl (by decide)
  refine ⟨rfl, by decide, ?_, ?_⟩
  · rw [h.2.2.1]; decide
  · rw [h.2.1]; decide

/-- Claim C2: a raw response matching neither the Success rule nor the
INSUFFICIENT_LIKES rule (timeouts, connection errors, unknown errors,
unrecognized codes, and success=true with likesAdded below the minimum)
is classified Error, and the appended audit record has likes_sent = 0,
success = false and the response's human-readable message (defaulted)
as error detail. -/
theorem C2_error_dispatch (now : String) (tid : Int) (gid : String)
    (r : RawResponse) (s : LoopState)
    (h1 : ¬ (r.success = true ∧ r.likesAdded ≥ MIN_LIKES_REQUIRED))
    (h2 : ¬ (r.success = false ∧ r.error = some "INSUFFICIENT_LIKES")) :
    (processOne now tid gid r s).2 =
      { status := "error", game_id := gid, data := r } ∧
    (processOne now tid gid r s).1.db.send_history =
      s.db.send_history ++
        [{ telegram_id := tid, game_id := gid, likes_sent := 0, success := false,
           error_message := some (r.message.getD "Erro desconhecido"),
           player_name := none, timestamp := now, is_auto := true }] ∧
    (processOne now tid gid r s).1.total_failures = s.total_failures + 1 := by
  have hc : classify r = "error" := by
    simp only [classify, if_neg h1, if_neg h2]
  refine ⟨?_, ?_, ?_⟩
  · rw [processOne_eq]; simp [entryOf, hc]
  · rw [processOne_eq]
    simp only [auditOf, if_neg h1, if_neg h2]
  · rw [processOne_eq]; simp [hc]

/-- Witness for C2 at the edge-case input success=true, likesAdded=50:
it falls through to the Error branch with a zero-likes audit row. -/
theorem C2_error_dispatch_witness :
    (¬ (({ success := true, likesAdded := 50 } : RawResponse).success = true ∧
        ({ success := true, likesAdded := 50 } : RawResponse).likesAdded
          ≥ MIN_LIKES_REQUIRED)) ∧
    (¬ (({ success := true, likesAdded := 50 } : RawResponse).success = false ∧
        ({ success := true, likesAdded := 50 } : RawResponse).error
          = some "INSUFFICIENT_LIKES")) ∧
    (processOne "t1" 5 "456" { success := true, likesAdded := 50 }
        { db := {} }).2 =
      { status := "error", game_id := "456",
        data := { success := true, likesAdded := 50 } } ∧
    (processOne "t1" 5 "456" { success := true, likesAdded := 50 }
        { db := {} }).1.db.send_history =
      [{ telegram_id := 5, game_id := "456", likes_sent := 0, success := false,
         error_message := some "Erro desconhecido", player_name := none,
         timestamp := "t1", is_auto := true }] := by
  have h := C2_error_dispatch "t1" 5 "456" { success := true, likesAdded := 50 }
    { db := {} } (by decide) (by decide)
  exact ⟨by decide, by decide, h.1, by rw [h.2.1]; decide⟩

/-- Claim C3: a response with success=false and error=INSUFFICIENT_LIKES
is classified Partial; the appended audit record carries likes_sent equal
to the response's likesAdded, success=false and error text
"Menos de 100 likes", and the registration rows are unchanged; on every
Error outcome the registration rows are likewise unchanged. -/
theorem C3_partial_frame (now : String) (tid : Int) (gid : String)
    (r : RawResponse) (s : LoopState) :
    (r.success = false → r.error = some "INSUFFICIENT_LIKES" →
      (processOne now tid gid r s).2 =
        { status := "partial", game_id := gid, data := r } ∧
      (processOne now tid gid r s).1.db.send_history =
        s.db.send_history ++
          [{ telegram_id := tid, game_id := gid, likes_sent := r.likesAdded,
             success := false, error_message := some "Menos de 100 likes",
             player_name := some (r.player.getD "N/A"), timestamp := now,
             is_auto := true }] ∧
      (processOne now tid gid r s).1.db.game_ids = s.db.game_ids) ∧
    ((processOne now tid gid r s).2.status = "error" →
      (processOne now tid gid r s).1.db.game_ids = s.db.game_ids) := by
  constructor
  · intro hs he
    have hc : classify r = "partial" := by simp [classify, hs, he]
    refine ⟨?_, ?_, ?_⟩
    · rw [processOne_eq]; simp [entryOf, hc]
    · rw [processOne_eq]; simp [auditOf, hs, he]
    · rw [processOne_eq]; simp [hc]
  · intro hst
    have hc : classify r = "error" := by
      have := hst
      rw [processOne_eq] at this
      simpa [entryOf] using this
    rw [processOne_eq]; simp [hc]

/-- Witness for C3 at a concrete Partial input (likesAdded 30) and a
concrete Error outcome, both leaving a one-row registration untouched. -/
theorem C3_partial_frame_witness :
    (processOne "t2" 9 "456"
        { success := false, error := some "INSUFFICIENT_LIKES", likesAdded := 30,
          player := some "Bob" }
        { db := { game_ids := [{ telegram_id := 9, game_id := "456",
                                 total_likes_received := 3 }] } }).2 =
      { status := "partial", game_id := "456",
        data := { success := false, error := some "INSUFFICIENT_LIKES",
                  likesAdded := 30, player := some "Bob" } } ∧
    (processOne "t2" 9 "456"
        { success := false, error := some "INSUFFICIENT_LIKES", likesAdded := 30,
          player := some "Bob" }
        { db := { game_ids := [{ telegram_id := 9, game_id := "456",
                                 total_likes_received := 3 }] } }).1.db.send_history =
      [{ telegram_id := 9, game_id := "456", likes_sent := 30, success := false,
         error_message := some "Menos de 100 likes", player_name := some "Bob",
         timestamp := "t2", is_auto := true }] ∧
    (processOne "t2" 9 "456"
        { success := false, error := some "INSUFFICIENT_LIKES", likesAdded := 30,
          player := some "Bob" }
        { db := { game_ids := [{ telegram_id := 9, game_id := "456",
                                 total_likes_received := 3 }] } }).1.db.game_ids =
      [{ telegram_id := 9, game_id := "456", total_likes_received := 3 }] ∧
    (processOne "t3" 9 "456" { error := some "timeout", message := some "Tempo esgotado" }
        { db := { game_ids := [{ telegram_id := 9, game_id := "456",
                                 total_likes_received := 3 }] } }).1.db.game_ids =
      [{ telegram_id := 9, game_id := "456", total_likes_received := 3 }] := by
  have h := C3_partial_frame "t2" 9 "456"
    { success := false, error := some "INSUFFICIENT_LIKES", likesAdded := 30,
      player := some "Bob" }
    { db := { game_ids := [{ telegram_id := 9, game_id := "456",
                             total_likes_received := 3 }] } }
  have h2 := C3_partial_frame "t3" 9 "456"
    { error := some "timeout", message := some "Tempo esgotado" }
    { db := { game_ids := [{ telegram_id := 9, game_id := "456",
                             total_likes_received := 3 }] } }
  obtain ⟨ha, hb, hc⟩ := h.1 rfl rfl
  exact ⟨ha, by rw [hb]; decide, hc, h2.2 (by decide)⟩

/-- Claim C4: with the credential present, every enumerated identifier is
processed no matter what the remote oracle returns for any identifier:
the audit log gains exactly one row per enumerated identifier, in
enumeration order, and when the enumeration is nonempty every user's
notification plus the admin report are all emitted (one per user plus
one report) — a Partial or Error outcome never aborts the loop. -/
theorem C4_failure_isolation (k now : String) (db : DB)
    (resp : Int → String → RawResponse) (deliver : Int → Bool)
    (adminDeliver : Bool) (hk : keyMissing (some k) = false) :
    (send_automatic_likes (some k) resp deliver adminDeliver now db).db.send_history =
      db.send_history ++
        (get_all_active_game_ids db).flatMap
          (fun g => g.2.map (fun gid => auditOf now g.1 gid (resp g.1 gid))) ∧
    (get_all_active_game_ids db ≠ [] →
      (send_automatic_likes (some k) resp deliver adminDeliver now db).notifications.length =
        (get_all_active_game_ids db).length + 1) := by
  by_cases hempty : get_all_active_game_ids db = []
  · refine ⟨?_, fun h => absurd hempty h⟩
    simp [send_automatic_likes, hk, hempty]
  · constructor
    · simp only [send_automatic_likes, hk, Bool.false_eq_true, if_false, if_neg hempty]
      exact processUsers_history now resp deliver (get_all_active_game_ids db) { db := db }
    · intro _
      simp only [send_automatic_likes, hk, Bool.false_eq_true, if_false, if_neg hempty]
      simp [processUsers_notifs]

/-- Witness for C4: two users, three identifiers, with one success, one
insufficient-likes failure and one timeout — all three are audited and
both users plus the admin are notified. -/
theorem C4_failure_isolation_witness :
    keyMissing (some "K") = false ∧
    (send_automatic_likes (some "K")
        (fun _ gid =>
          if gid = "a" then { success := true, likesAdded := 150, player := some "Ana" }
          else if gid = "b" then
            { success := false, error := some "INSUFFICIENT_LIKES", likesAdded := 4 }
          else { error := some "timeout", message := some "Tempo de resposta esgotado." })
        (fun _ => true) true "t"
        { game_ids := [{ telegram_id := 1, game_id := "a" },
                       { telegram_id := 1, game_id := "b" },
                       { telegram_id := 2, game_id := "c" }] }).db.send_history.map
        (fun rec => (rec.telegram_id, rec.game_id, rec.likes_sent, rec.success)) =
      [(1, "a", 150, true), (1, "b", 4, false), (2, "c", 0, false)] ∧
    (send_automatic_likes (some "K")
        (fun _ gid =>
          if gid = "a" then { success := true, likesAdded := 150, player := some "Ana" }
          else if gid = "b" then
            { success := false, error := some "INSUFFICIENT_LIKES", likesAdded := 4 }
          else { error := some "timeout", message := some "Tempo de resposta esgotado." })
        (fun _ => true) true "t"
        { game_ids := [{ telegram_id := 1, game_id := "a" },
                       { telegram_id := 1, game_id := "b" },
                       { telegram_id := 2, game_id := "c" }] }).notifications.length = 3 := by
  have h := C4_failure_isolation "K" "t"
    { game_ids := [{ telegram_id := 1, game_id := "a" },
                   { telegram_id := 1, game_id := "b" },
                   { telegram_id := 2, game_id := "c" }] }
    (fun _ gid =>
      if gid = "a" then { success := true, likesAdded := 150, player := some "Ana" }
      else if gid = "b" then
        { success := false, error := some "INSUFFICIENT_LIKES", likesAdded := 4 }
      else { error := some "timeout", message := some "Tempo de resposta esgotado." })
    (fun _ => true) true rfl
  refine ⟨rfl, ?_, ?_⟩
  · rw [h.1]; decide
  · rw [h.2 (by decide)]; decide

/-- Claim C5: with the credential absent (Python-falsy), the cycle aborts
at once: the store is untouched (zero audit rows), the only transport
event is the single configuration-error notice to the admin (zero user
notifications), and no summary value is returned. -/
theorem C5_missing_credential (api_key : Option String)
    (resp : Int → String → RawResponse) (deliver : Int → Bool)
    (adminDeliver : Bool) (now : String) (db : DB)
    (hk : keyMissing api_key = true) :
    send_automatic_likes api_key resp deliver adminDeliver now db =
      { db := db, notifications := [.adminConfigError], retval := none } := by
  simp [send_automatic_likes, hk]

/-- Witness for C5 with no stored key and a nonempty store. -/
theorem C5_missing_credential_witness :
    keyMissing none = true ∧
    send_automatic_likes none (fun _ _ => {}) (fun _ => true) true "t"
        { game_ids := [{ telegram_id := 1, game_id := "a" }] } =
      { db := { game_ids := [{ telegram_id := 1, game_id := "a" }] },
        notifications := [.adminConfigError], retval := none } :=
  ⟨rfl, C5_missing_credential none (fun _ _ => {}) (fun _ => true) true "t"
    { game_ids := [{ telegram_id := 1, game_id := "a" }] } rfl⟩

/-- Claim C6: with the credential present but no active identifiers, the
cycle returns without aborting: the store is untouched, and no user or
admin notification is emitted at all. -/
theorem C6_empty_enumeration (k : String) (resp : Int → String → RawResponse)
    (deliver : Int → Bool) (adminDeliver : Bool) (now : String) (db : DB)
    (hk : keyMissing (some k) = false)
    (hempty : get_all_active_game_ids db = []) :
    send_automatic_likes (some k) resp deliver adminDeliver now db =
      { db := db, notifications := [], retval := none } := by
  simp [send_automatic_likes, hk, hempty]

/-- Witness for C6: a store whose only registration is inactive. -/
theorem C6_empty_enumeration_witness :
    keyMissing (some "K") = false ∧
    get_all_active_game_ids
        { game_ids := [{ telegram_id := 1, game_id := "a", active := false }] } = [] ∧
    send_automatic_likes (some "K") (fun _ _ => {}) (fun _ => true) true "t"
        { game_ids := [{ telegram_id := 1, game_id := "a", active := false }] } =
      { db := { game_ids := [{ telegram_id := 1, game_id := "a", active := false }] },
        notifications := [], retval := none } :=
  ⟨rfl, by decide,
   C6_empty_enumeration "K" (fun _ _ => {}) (fun _ => true) true "t"
     { game_ids := [{ telegram_id := 1, game_id := "a", active := false }] }
     rfl (by decide)⟩

/-- The outer loop splits over list appends: the state after a prefix of
the enumeration is the loop state the remainder starts from. -/
theorem processUsers_append (now : String) (resp : Int → String → RawResponse)
    (deliver : Int → Bool) (a b : List (Int × List String)) (s : LoopState) :
    processUsers now resp deliver (a ++ b) s =
      ((processUsers now resp deliver b (processUsers now resp deliver a s).1).1,
       (processUsers now resp deliver a s).2 ++
         (processUsers now resp deliver b (processUsers now resp deliver a s).1).2) := by
  induction a generalizing s with
  | nil => simp [processUsers]
  | cons g rest ih =>
      obtain ⟨tid, gids⟩ := g
      simp [processUsers, ih]

/-- Claim C7: with the credential present and a nonempty enumeration, the
cycle's notification trace is exactly one consolidated message per user,
in enumeration order, each carrying that user's ordered outcomes,
followed by the single admin report; and the cycle's final store and
counters are independent of which user deliveries fail (a delivery
failure is caught and isolated). -/
theorem C7_one_notification_per_user (k now : String) (db : DB)
    (resp : Int → String → RawResponse) (deliver : Int → Bool)
    (adminDeliver : Bool) (hk : keyMissing (some k) = false)
    (hne : get_all_active_game_ids db ≠ []) :
    (send_automatic_likes (some k) resp deliver adminDeliver now db).notifications =
      (get_all_active_game_ids db).map (fun g =>
        Notif.userMsg g.1 (g.2.map (fun gid => entryOf gid (resp g.1 gid)))
          (deliver g.1)) ++
      [send_admin_report adminDeliver (get_all_active_game_ids db).length
        ((get_all_active_game_ids db).map (fun p => p.2.length)).sum
        (processUsers now resp deliver (get_all_active_game_ids db) { db := db }).1.total_likes_sent
        (processUsers now resp deliver (get_all_active_game_ids db) { db := db }).1.total_successes
        (processUsers now resp deliver (get_all_active_game_ids db) { db := db }).1.total_failures] ∧
    (send_automatic_likes (some k) resp deliver adminDeliver now db).db =
      (send_automatic_likes (some k) resp (fun _ => true) adminDeliver now db).db := by
  constructor
  · simp only [send_automatic_likes, hk, Bool.false_eq_true, if_false, if_neg hne]
    simp [processUsers_notifs]
  · simp only [send_automatic_likes, hk, Bool.false_eq_true, if_false, if_neg hne]
    simp [processUsers_state_indep now resp deliver (fun _ => true)]

/-- Witness for C7: user 1 has two identifiers (one success, one error),
user 2 has one; user 1's delivery fails, yet both users get exactly one
consolidated message and the final store is as with perfect delivery. -/
theorem C7_one_notification_per_user_witness :
    (send_automatic_likes (some "K")
        (fun _ gid =>
          if gid = "a" then { success := true, likesAdded := 120, player := some "Ana" }
          else { error := some "timeout", message := some "Tempo de resposta esgotado." })
        (fun u => u ≠ 1) true "t"
        { game_ids := [{ telegram_id := 1, game_id := "a" },
                       { telegram_id := 1, game_id := "b" },
                       { telegram_id := 2, game_id := "c" }] }).notifications.map
        (fun n => match n with
          | .userMsg tid results d => (tid, results.map (fun e => e.status), d)
          | _ => (0, [], true)) =
      [(1, ["success", "error"], false), (2, ["error"], true), (0, [], true)] ∧
    (send_automatic_likes (some "K")
        (fun _ gid =>
          if gid = "a" then { success := true, likesAdded := 120, player := some "Ana" }
          else { error := some "timeout", message := some "Tempo de resposta esgotado." })
        (fun u => u ≠ 1) true "t"
        { game_ids := [{ telegram_id := 1, game_id := "a" },
                       { telegram_id := 1, game_id := "b" },
                       { telegram_id := 2, game_id := "c" }] }).db =
      (send_automatic_likes (some "K")
        (fun _ gid =>
          if gid = "a" then { success := true, likesAdded := 120, player := some "Ana" }
          else { error := some "timeout", message := some "Tempo de resposta esgotado." })
        (fun _ => true) true "t"
        { game_ids := [{ telegram_id := 1, game_id := "a" },
                       { telegram_id := 1, game_id := "b" },
                       { telegram_id := 2, game_id := "c" }] }).db := by
  have h := C7_one_notification_per_user "K" "t"
    { game_ids := [{ telegram_id := 1, game_id := "a" },
                   { telegram_id := 1, game_id := "b" },
                   { telegram_id := 2, game_id := "c" }] }
    (fun _ gid =>
      if gid = "a" then { success := true, likesAdded := 120, player := some "Ana" }
      else { error := some "timeout", message := some "Tempo de resposta esgotado." })
    (fun u => u ≠ 1) true rfl (by decide)
  refine ⟨?_, h.2⟩
  rw [h.1]
  decide

/-- Claim C8: whenever the cycle reaches the admin report (credential
present, nonempty enumeration), the report's success rate is the division
successes/(successes+failures)*100 evaluated with a positive denominator:
the division never faults there. -/
theorem C8_admin_rate_never_faults (k now : String) (db : DB)
    (resp : Int → String → RawResponse) (deliver : Int → Bool)
    (adminDeliver : Bool) (hk : keyMissing (some k) = false)
    (hne : get_all_active_game_ids db ≠ []) :
    ∃ tu ti : Nat, ∃ tl : Int, ∃ s f : Nat,
      (send_automatic_likes (some k) resp deliver adminDeliver now db).notifications.getLast? =
        some (.adminReport tu ti tl s f
          (some ((s : ℚ) / ((s : ℚ) + (f : ℚ)) * 100)) adminDeliver) ∧
      0 < s + f := by
  obtain ⟨g, rest, hgr⟩ : ∃ g rest, get_all_active_game_ids db = g :: rest := by
    cases hgs : get_all_active_game_ids db with
    | nil => exact absurd hgs hne
    | cons a l => exact ⟨a, l, rfl⟩
  have hgnonempty : g.2 ≠ [] := by
    have := groupRows_nonempty
      ((db.game_ids.filter (fun r => r.active)).map (fun r => (r.telegram_id, r.game_id)))
      g
    apply this
    rw [show groupRows ((db.game_ids.filter (fun r => r.active)).map
      (fun r => (r.telegram_id, r.game_id))) = get_all_active_game_ids db from rfl, hgr]
    exact List.mem_cons_self _ _
  have hsum :
      (processUsers now resp deliver (get_all_active_game_ids db) { db := db }).1.total_successes +
        (processUsers now resp deliver (get_all_active_game_ids db) { db := db }).1.total_failures =
      ((get_all_active_game_ids db).map (fun p => p.2.length)).sum := by
    have := (processUsers_counters now resp deliver (get_all_active_game_ids db)
      { db := db }).1
    simpa using this
  have hpos : 0 < ((get_all_active_game_ids db).map (fun p => p.2.length)).sum := by
    rw [hgr]
    have : 0 < g.2.length := List.length_pos.mpr hgnonempty
    simp only [List.map_cons, List.sum_cons]
    omega
  refine ⟨(get_all_active_game_ids db).length,
    ((get_all_active_game_ids db).map (fun p => p.2.length)).sum,
    (processUsers now resp deliver (get_all_active_game_ids db) { db := db }).1.total_likes_sent,
    (processUsers now resp deliver (get_all_active_game_ids db) { db := db }).1.total_successes,
    (processUsers now resp deliver (get_all_active_game_ids db) { db := db }).1.total_failures,
    ?_, by omega⟩
  simp only [send_automatic_likes, hk, Bool.false_eq_true, if_false, if_neg hne]
  simp only [List.getLast?_append, List.getLast?_singleton, Option.or_some]
  have hden : (processUsers now resp deliver (get_all_active_game_ids db)
      { db := db }).1.total_successes +
      (processUsers now resp deliver (get_all_active_game_ids db)
        { db := db }).1.total_failures ≠ 0 := by omega
  simp [send_admin_report, successRate, hden]

/-- Witness for C8: one user with two identifiers, one success and one
timeout — the admin report is reached with denominator 1+1 and the rate
is computed, not faulted. -/
theorem C8_admin_rate_never_faults_witness :
    keyMissing (some "K") = false ∧
    get_all_active_game_ids
        { game_ids := [{ telegram_id := 1, game_id := "a" },
                       { telegram_id := 1, game_id := "b" }] } ≠ [] ∧
    (send_automatic_likes (some "K")
        (fun _ gid =>
          if gid = "a" then { success := true, likesAdded := 120, player := some "Ana" }
          else { error := some "timeout", message := some "Tempo de resposta esgotado." })
        (fun _ => true) true "t"
        { game_ids := [{ telegram_id := 1, game_id := "a" },
                       { telegram_id := 1, game_id := "b" }] }).notifications.getLast? =
      some (.adminReport 1 2 120 1 1
        (some (((1 : Nat) : ℚ) / (((1 : Nat) : ℚ) + ((1 : Nat) : ℚ)) * 100)) true) := by
  obtain ⟨tu, ti, tl, s, f, h1, h2⟩ := C8_admin_rate_never_faults "K" "t"
    { game_ids := [{ telegram_id := 1, game_id := "a" },
                   { telegram_id := 1, game_id := "b" }] }
    (fun _ gid =>
      if gid = "a" then { success := true, likesAdded := 120, player := some "Ana" }
      else { error := some "timeout", message := some "Tempo de resposta esgotado." })
    (fun _ => true) true rfl (by decide)
  exact ⟨rfl, by decide, rfl⟩

/-- Counterexample to claim C9: on a concrete full run (one user, one
identifier, a 150-like success) the cycle computes the aggregation
(visible in the admin report: 1 user, 1 id, 150 likes, 1 success,
0 failures) but the coroutine's return value is None, not that
DispatchSummary — manual-trigger callers get no result. -/
theorem C9_no_summary_counterexample :
    (send_automatic_likes (some "K")
        (fun _ _ => { success := true, likesAdded := 150, player := some "Ana" })
        (fun _ => true) true "t"
        { game_ids := [{ telegram_id := 1, game_id := "123" }] }).notifications.getLast? =
      some (.adminReport 1 1 150 1 0
        (some (((1 : Nat) : ℚ) / (((1 : Nat) : ℚ) + ((0 : Nat) : ℚ)) * 100)) true) ∧
    (send_automatic_likes (some "K")
        (fun _ _ => { success := true, likesAdded := 150, player := some "Ana" })
        (fun _ => true) true "t"
        { game_ids := [{ telegram_id := 1, game_id := "123" }] }).retval ≠
      some { total_users := 1, total_ids := 1, total_likes_sent := 150,
             total_successes := 1, total_failures := 0 } := by
  exact ⟨rfl, by decide⟩

/-- Claim C9 as amended: the cycle entry point is callable from the timer
or the manual trigger (force_send runs exactly the same cycle), and it
computes the run's aggregation only to pass it to the admin report — on
every path its return value is None, so no DispatchSummary reaches a
manual-trigger caller. -/
theorem C9_amended_no_return (api_key : Option String)
    (resp : Int → String → RawResponse) (deliver : Int → Bool)
    (adminDeliver : Bool) (now : String) (db : DB) :
    force_send api_key resp deliver adminDeliver now db =
      send_automatic_likes api_key resp deliver adminDeliver now db ∧
    (send_automatic_likes api_key resp deliver adminDeliver now db).retval = none := by
  refine ⟨rfl, ?_⟩
  simp only [send_automatic_likes]
  split_ifs <;> rfl

/-- Claim C10: loop invariant of the dispatch loop. For the inner loop
and the outer loop alike, starting from any loop state, the two counters
together grow by exactly the number of identifiers processed (each
identifier is counted in exactly one of them), and total_likes_sent
grows by the sum of likesAdded over exactly the Success-classified
responses; moreover the state after a prefix of the enumeration is the
state the remainder resumes from, so the invariant holds at every
intermediate point of the run. -/
theorem C10_counter_invariant (now : String) (resp : Int → String → RawResponse)
    (deliver : Int → Bool) :
    (∀ (tid : Int) (gids : List String) (s : LoopState),
      (processUser now resp tid gids s).1.total_successes +
          (processUser now resp tid gids s).1.total_failures =
        s.total_successes + s.total_failures + gids.length ∧
      (processUser now resp tid gids s).1.total_likes_sent =
        s.total_likes_sent + (gids.map (fun gid => successLikes (resp tid gid))).sum) ∧
    (∀ (groups : List (Int × List String)) (s : LoopState),
      (processUsers now resp deliver groups s).1.total_successes +
          (processUsers now resp deliver groups s).1.total_failures =
        s.total_successes + s.total_failures + (groups.map (fun g => g.2.length)).sum ∧
      (processUsers now resp deliver groups s).1.total_likes_sent =
        s.total_likes_sent +
          (groups.flatMap (fun g => g.2.map (fun gid => successLikes (resp g.1 gid)))).sum) ∧
    (∀ (a b : List (Int × List String)) (s : LoopState),
      (processUsers now resp deliver (a ++ b) s).1 =
        (processUsers now resp deliver b (processUsers now resp deliver a s).1).1) :=
  ⟨fun tid gids s => processUser_counters now resp tid gids s,
   fun groups s => processUsers_counters now resp deliver groups s,
   fun a b s => by rw [processUsers_append]⟩

end Bot
